import Mathlib

/-!
Verification development for the multi-agent workflow engine
(`src/graphs/workflow.py`, `src/graphs/state.py`,
`src/agents/base/langgraph_agent.py`, `src/agents/agent_01_fullstack_architect.py`).

The Python state dict (`AgentState` TypedDict plus the dynamically added keys
`iteration`, `next_agents`, `task_complete`, `agent_models`) is embedded as a
Lean structure; dict-absent keys are represented at their `.get` default values.
Floating point token costs are modelled as rationals.  External collaborators
(the LLM service, Linear, GitHub, the LangGraph runtime) are parameters: a
specialist run's outcome is an explicit `RunOutcome`, and graph execution is a
fuel-indexed step function mirroring the wiring in
`MultiAgentWorkflow._build_graph`.
-/

namespace MultiAgents

/-- Result record of one agent execution
(`AgentResult` TypedDict, `src/graphs/state.py` lines 77-105). -/
structure AgentResult where
  agent_id : String
  agent_name : String
  success : Bool
  summary : String
  files_modified : List String
  files_created : List String
  files_deleted : List String
  branch_name : String
  pr_url : String
  commits : List String
  issue_id : String
  issue_updated : Bool
  tokens_used : Nat
  cost_usd : ℚ
  execution_time : ℚ
  error_message : String
  needs_retry : Bool
deriving DecidableEq

/-- Shared workflow state (`AgentState` TypedDict, `src/graphs/state.py` lines
10-74, plus the dynamically-added dict keys `iteration`, `next_agents`,
`task_complete`, `agent_models` used by the workflow and agents.  The keys
`iteration`, `next_agents` and `task_complete` are only ever read through
`.get` or created by plain assignment, so an absent key is modelled by the
source's `.get` default; `agent_models` is additionally subscript-assigned
(`state['agent_models'][k] = v`, agent_01 line 497), which raises `KeyError`
when the key is absent, so its presence is tracked with an `Option` and no
code in the repository ever creates it. -/
structure AgentState where
  task_id : String
  task_description : String
  task_title : String
  project_path : String
  complexity : String
  linear_main_issue_id : String
  linear_main_issue_url : String
  linear_team_id : String
  linear_sub_issues : List (String × String)
  github_repo : String
  github_base_branch : String
  github_agent_branches : List (String × String)
  github_prs : List (String × String × String)
  agent_results : List (String × AgentResult)
  completed_agents : List String
  failed_agents : List String
  blocked_agents : List String
  started_at : String
  updated_at : String
  messages : List String
  total_tokens_used : Nat
  total_cost_usd : ℚ
  execution_time_seconds : ℚ
  security_approved : Bool
  needs_human_review : Bool
  requires_devops : Bool
  requires_testing : Bool
  next_agent : String
  iteration : Nat
  next_agents : List String
  task_complete : Bool
  agent_models : Option (List (String × String))
deriving DecidableEq

/-- Association-list lookup, modelling Python `d[k]` / `k in d` on a dict. -/
def lookupA {α : Type} : List (String × α) → String → Option α
  | [], _ => none
  | (k, v) :: rest, key => if k = key then some v else lookupA rest key

/-- Association-list store, modelling Python dict assignment `d[k] = v`
(overwrite in place if present, append if new). -/
def updateAssoc {α : Type} : List (String × α) → String → α → List (String × α)
  | [], k, v => [(k, v)]
  | (k0, v0) :: rest, k, v =>
      if k0 = k then (k, v) :: rest else (k0, v0) :: updateAssoc rest k v

/-- Prefix test on character lists. -/
def startsWithL : List Char → List Char → Bool
  | [], _ => true
  | _ :: _, [] => false
  | p :: ps, c :: cs => p = c && startsWithL ps cs

/-- Remainders of the haystack right after each occurrence of the (non-empty)
pattern, leftmost occurrence first: the successive candidate match positions
scanned by Python `in` and `re.search`. -/
def matchRemainders (pat : List Char) : List Char → List (List Char)
  | [] => []
  | c :: cs =>
      (if startsWithL pat (c :: cs) then [(c :: cs).drop pat.length] else []) ++
        matchRemainders pat cs

/-- Python `pat in s` substring test (for a non-empty pattern). -/
def containsSubstr (s pat : String) : Bool :=
  !(matchRemainders pat.toList s.toList).isEmpty

/-- Characters matched by the `[\d.]` character class of the wait-time regex
in `LangChainAgentBase._execute_with_retry` (line 532). -/
def isDigitOrDot (c : Char) : Bool :=
  c.isDigit || c = '.'

/-- Split a digits-and-dots token at its dots (Python `str.split('.')`
restricted to what `float` needs to inspect). -/
def splitOnDot : List Char → List (List Char)
  | [] => [[]]
  | c :: cs =>
      match splitOnDot cs with
      | [] => [[]]
      | g :: gs => if c = '.' then [] :: g :: gs else (c :: g) :: gs

/-- Numeric value of a digit run. -/
def digitsVal (l : List Char) : ℕ :=
  l.foldl (fun n c => n * 10 + (c.toNat - 48)) 0

/-- Python `float(tok)` on a token consisting of digits and dots: `none` when
`float` raises `ValueError` (more than one dot, or a bare dot). -/
def pyFloat (tok : List Char) : Option ℚ :=
  match splitOnDot tok with
  | [i] => if i ≠ [] then some (digitsVal i : ℚ) else none
  | [i, f] =>
      if i = [] ∧ f = [] then none
      else some ((digitsVal i : ℚ) + (digitsVal f : ℚ) / (10 : ℚ) ^ f.length)
  | _ => none

/-- Match attempt of the regex tail `([\d.]+)s` at one position right after an
occurrence of `"try again in "`: the maximal run of digits and dots, which must
be non-empty and be followed by a literal `s`. -/
def matchWaitTok (rest : List Char) : Option (List Char) :=
  let tok := rest.takeWhile isDigitOrDot
  if tok ≠ [] ∧ (rest.drop tok.length).head? = some 's' then some tok
  else none

/-- Leftmost match of `re.search(r'try again in ([\d.]+)s', msg)`:
scan the occurrences of `"try again in "` in order and return the first
captured group. -/
def findWaitTok (msg : String) : Option (List Char) :=
  (matchRemainders "try again in ".toList msg.toList).findSome? matchWaitTok

/-- Server-suggested wait seconds parsed from a rate-limit error message
(`_execute_with_retry` lines 528-536): only consulted when the message contains
`"Please try again in"`; a regex match whose captured group fails `float`
conversion is silently discarded (the bare `except: pass`). -/
def parseWaitTime (error_msg : String) : Option ℚ :=
  if containsSubstr error_msg "Please try again in" then
    (findWaitTok error_msg).bind pyFloat
  else none

/-- Outcome of one attempt of the wrapped LLM call
(`self.executor.ainvoke` + `_parse_output`): a parsed successful result, a
`RateLimitError` carrying its message, or any other exception. -/
inductive CallResult where
  | success (res : AgentResult)
  | rateLimit (msg : String)
  | fatal (msg : String)
deriving DecidableEq

/-- Retry loop of `LangChainAgentBase._execute_with_retry` (lines 487-555).
`script n` is the behaviour of the external LLM service on attempt `n`.
The fuel argument equals `max_retries - attempt`, so fuel `0` is only reached
when `max_retries = 0` (the Python `for` loop body never runs and the final
`raise` fires).  Returns the result together with the cumulated sleep time. -/
def retryLoop (script : Nat → CallResult) (maxRetries : Nat) :
    Nat → Nat → ℚ → ℚ → Except String (AgentResult × ℚ)
  | 0, _, _, _ => .error "Unknown error in retry loop"
  | fuel + 1, attempt, delay, slept =>
      match script attempt with
      | .success res => .ok (res, slept)
      | .fatal m => .error m
      | .rateLimit m =>
          let wait : ℚ :=
            match parseWaitTime m with
            | some w => w + 1
            | none => delay
          if attempt < maxRetries - 1 then
            retryLoop script maxRetries fuel (attempt + 1) (delay * 2) (slept + wait)
          else
            .error m

/-- `LangChainAgentBase._execute_with_retry` with its default arguments
`max_retries = 5`, `initial_delay = 2.0`. -/
def executeWithRetry (script : Nat → CallResult) : Except String (AgentResult × ℚ) :=
  retryLoop script 5 5 0 2 0

/-- Sleep contributed by attempt outcome `c` when the fallback exponential
delay at that attempt is `d`: a parsed server hint plus the one-second buffer
(line 534: `float(match.group(1)) + 1`), else the fallback delay; successful
and fatal attempts sleep nothing. -/
def waitOf (c : CallResult) (d : ℚ) : ℚ :=
  match c with
  | .rateLimit m =>
      match parseWaitTime m with
      | some w => w + 1
      | none => d
  | _ => 0

/-- Mutable identity of one agent object: its id, the `config['name']` display
name, and the current `self.llm.model_name` attribute. -/
structure AgentInstance where
  agent_id : String
  name : String
  llm_model : String
deriving DecidableEq

/-- Candidate keys under which `LangChainAgentBase.execute` looks for a model
assignment (lines 375-387): the full agent id first, then each short alias
whose name occurs as a substring of the id (`'ai'` additionally requires
`'agent-11'`); `none` models the Python `None` entries. -/
def possibleKeys (agent_id : String) : List (Option String) :=
  [some agent_id,
   if containsSubstr agent_id "frontend" then some "frontend" else none,
   if containsSubstr agent_id "backend" then some "backend" else none,
   if containsSubstr agent_id "devops" then some "devops" else none,
   if containsSubstr agent_id "security" then some "security" else none,
   if containsSubstr agent_id "performance" then some "performance" else none,
   if containsSubstr agent_id "qa" then some "qa" else none,
   if containsSubstr agent_id "seo" then some "seo" else none,
   if containsSubstr agent_id "ux" then some "ux" else none,
   if containsSubstr agent_id "data" then some "data" else none,
   if containsSubstr agent_id "ai" && containsSubstr agent_id "agent-11" then some "ai" else none]

/-- First assigned model found in `state['agent_models']` under a candidate key
(lines 389-392: `if key and key in agent_models`). -/
def lookupAssignedModel (agent_id : String) (models : List (String × String)) : Option String :=
  (possibleKeys agent_id).findSome? fun k? =>
    k?.bind fun k => if k = "" then none else lookupA models k

/-- Temporary model switch at dispatch (lines 394-399): when an assigned model
exists and differs from the current `llm.model_name`, switch to it and remember
the previous model in `original_model`.  The assignments are read through
`state.get('agent_models', {})` (line 370), so an absent key reads as empty. -/
def applyOverride (inst : AgentInstance) (s : AgentState) : AgentInstance × Option String :=
  match lookupAssignedModel inst.agent_id (s.agent_models.getD []) with
  | some m =>
      if m ≠ inst.llm_model then ({ inst with llm_model := m }, some inst.llm_model)
      else (inst, none)
  | none => (inst, none)

/-- Model name in effect while the agent body runs (the value of
`self.llm.model_name` between lines 399 and 439). -/
def modelUsed (inst : AgentInstance) (s : AgentState) : String :=
  ((applyOverride inst s).1).llm_model

/-- Outcome of the body of `LangChainAgentBase.execute`: either
`_execute_with_retry` produced an `AgentResult` (possibly enriched with PR
data), or some exception escaped into the `except` branch. -/
inductive RunOutcome where
  | ok (res : AgentResult)
  | err (msg : String)
deriving DecidableEq

/-- `LangChainAgentBase.execute` (lines 341-455), with the external LLM /
Linear / GitHub collaborators summarised by `outcome`.  Success records the
result under the agent id, appends to `completed_agents` and `messages`, and
accumulates tokens and cost (lines 429-434); failure appends to
`failed_agents` and `messages` only (lines 444-455).  On both paths
`original_model` is restored (lines 439-440 and 449-450). -/
def agentExecute (inst : AgentInstance) (outcome : RunOutcome) (s : AgentState) :
    AgentInstance × AgentState :=
  let (instRun, original) := applyOverride inst s
  let restore : AgentInstance :=
    match original with
    | some om => { instRun with llm_model := om }
    | none => instRun
  match outcome with
  | .ok res =>
      (restore,
       { s with
         agent_results := updateAssoc s.agent_results inst.agent_id res,
         completed_agents := s.completed_agents ++ [inst.agent_id],
         messages := s.messages ++ ["✅ " ++ inst.name ++ " completado"],
         total_tokens_used := s.total_tokens_used + res.tokens_used,
         total_cost_usd := s.total_cost_usd + res.cost_usd })
  | .err e =>
      (restore,
       { s with
         failed_agents := s.failed_agents ++ [inst.agent_id],
         messages := s.messages ++ ["❌ " ++ inst.name ++ " falló: " ++ e] })

/-- Net effect of one run of the architect agent on its tool-call accumulators
(`FullStackArchitectAgent.execute`, lines 470-501): the base-class outcome,
the final `self._scheduled_agents`, and the final `self._assigned_models`.
Both accumulators are reset to empty before the run, so a run whose LLM call
fails before any successful `schedule_agents` tool call has `scheduled = []`. -/
structure ArchRun where
  outcome : RunOutcome
  scheduled : List String
  assigned : List (String × String)

/-- Scheduling injection of `FullStackArchitectAgent.execute` (lines 486-491):
overwrite `next_agents` wholesale with the scheduled list and set
`task_complete` when that list is empty. -/
def architectInject (r : ArchRun) (s1 : AgentState) : AgentState :=
  { s1 with
    next_agents := r.scheduled,
    task_complete := if r.scheduled.isEmpty then true else s1.task_complete }

/-- Model-assignment injection of `FullStackArchitectAgent.execute` (lines
494-499): skipped when `self._assigned_models` is empty (the `if` guard);
otherwise each entry is stored with `state['agent_models'][agent_id] = model`
(line 497).  That subscript assignment requires the `agent_models` key to
exist; no code in the repository ever creates it (`create_initial_state` and
`_start_node` do not), so when assignments are present and the key is absent
the node raises `KeyError`. -/
def architectAssignModels (r : ArchRun) (s2 : AgentState) : Except String AgentState :=
  match r.assigned with
  | [] => Except.ok s2
  | _ :: _ =>
      match s2.agent_models with
      | none => Except.error "KeyError: agent_models"
      | some m =>
          Except.ok
            { s2 with
              agent_models := some (r.assigned.foldl (fun acc kv => updateAssoc acc kv.1 kv.2) m) }

/-- `FullStackArchitectAgent.execute` (lines 470-501): run the base-class
execute, inject the scheduled agents, then merge the model assignments; a
`KeyError` from the merge propagates out of the graph node. -/
def architectExecute (inst : AgentInstance) (r : ArchRun) (s : AgentState) :
    AgentInstance × Except String AgentState :=
  let (inst1, s1) := agentExecute inst r.outcome s
  (inst1, architectAssignModels r (architectInject r s1))

/-- `MultiAgentWorkflow._start_node` (workflow.py lines 153-173). -/
def startNode (s : AgentState) : AgentState :=
  { s with
    messages := s.messages ++
      ["📋 Sistema multi-agente inicializado",
       "🎯 Tarea: " ++ s.task_description.take 100 ++ "..."],
    iteration := 0,
    next_agents := [] }

/-- `MultiAgentWorkflow._router_node` (workflow.py lines 175-224): increment
the iteration counter; when the task is marked complete, or when no agents
remain queued, schedule the observer as the next (final) step. -/
def routerNode (s : AgentState) : AgentState :=
  let s1 := { s with iteration := s.iteration + 1 }
  if s1.task_complete then { s1 with next_agents := ["observer"] }
  else if s1.next_agents.isEmpty then { s1 with next_agents := ["observer"] }
  else s1

/-- Identifier-to-node lookup table of `MultiAgentWorkflow._route_to_agents`
(workflow.py lines 250-274): canonical ids and short aliases. -/
def agentMap : List (String × String) :=
  [("agent-02-frontend-specialist", "frontend"),
   ("agent-03-backend-specialist", "backend"),
   ("agent-04-devops-specialist", "devops"),
   ("agent-05-security-specialist", "security"),
   ("agent-06-performance-specialist", "performance"),
   ("agent-07-qa-specialist", "qa"),
   ("agent-08-seo-specialist", "seo"),
   ("agent-09-ux-specialist", "ux"),
   ("agent-10-data-specialist", "data"),
   ("agent-11-ai-specialist", "ai"),
   ("agent-12-observer-optimizer", "observer"),
   ("frontend", "frontend"),
   ("backend", "backend"),
   ("devops", "devops"),
   ("security", "security"),
   ("performance", "performance"),
   ("qa", "qa"),
   ("seo", "seo"),
   ("ux", "ux"),
   ("data", "data"),
   ("ai", "ai"),
   ("observer", "observer")]

/-- `MultiAgentWorkflow._route_to_agents` (workflow.py lines 230-276): pop the
front of `next_agents` and resolve it through `agentMap`, defaulting to the
terminal route `"end"` for an empty queue or an unknown identifier. -/
def routeToAgents (s : AgentState) : String × AgentState :=
  match s.next_agents with
  | [] => ("end", s)
  | a :: rest => ((lookupA agentMap a).getD "end", { s with next_agents := rest })

/-- Log lines emitted by `_route_to_agents`: the function body contains no
`logger` call and no `print`, so its log output is always empty. -/
def routeToAgentsLog (_s : AgentState) : List String :=
  []

/-- Edges added by `MultiAgentWorkflow._build_graph` (workflow.py lines
111-142) apart from the router's conditional edges: the entry chain, every
specialist looping back to the router, and the observer ending the workflow. -/
def graphEdges : List (String × String) :=
  [("start", "architect"),
   ("architect", "router"),
   ("frontend", "router"),
   ("backend", "router"),
   ("devops", "router"),
   ("security", "router"),
   ("performance", "router"),
   ("qa", "router"),
   ("seo", "router"),
   ("ux", "router"),
   ("data", "router"),
   ("ai", "router"),
   ("observer", "END")]

/-- Targets of the conditional edges attached to the router node
(workflow.py lines 117-134): route label to destination node. -/
def routerConditionalTargets : List (String × String) :=
  [("frontend", "frontend"),
   ("backend", "backend"),
   ("devops", "devops"),
   ("security", "security"),
   ("performance", "performance"),
   ("qa", "qa"),
   ("seo", "seo"),
   ("ux", "ux"),
   ("data", "data"),
   ("ai", "ai"),
   ("observer", "observer"),
   ("end", "END")]

/-- Agent instances created by `MultiAgentWorkflow._init_agents`, keyed by
their node name; each starts at the configured default model
(`config.get('model', 'gpt-4-turbo-preview')`). -/
def instFor (node : String) : AgentInstance :=
  let mk := fun id name => AgentInstance.mk id name "gpt-4-turbo-preview"
  match node with
  | "architect" => mk "agent-01-fullstack-architect" "Carlos Mendoza"
  | "frontend" => mk "agent-02-frontend-specialist" "Elena Rodriguez"
  | "backend" => mk "agent-03-backend-specialist" "Miguel Torres"
  | "devops" => mk "agent-04-devops-specialist" "Ana Martínez"
  | "security" => mk "agent-05-security-specialist" "Roberto García"
  | "performance" => mk "agent-06-performance-specialist" "Laura Sánchez"
  | "qa" => mk "agent-07-qa-specialist" "Patricia Ruiz"
  | "seo" => mk "agent-08-seo-specialist" "David Fernández"
  | "ux" => mk "agent-09-ux-specialist" "Sofia Morales"
  | "data" => mk "agent-10-data-specialist" "Ricardo Vargas"
  | "ai" => mk "agent-11-ai-specialist" "Alejandro Ramos"
  | "observer" => mk "agent-12-observer-optimizer" "Dr. María González"
  | other => mk other other

/-- Router-centred execution loop of the compiled graph: every pass runs
`_router_node`, then the conditional edge `_route_to_agents`; route `"end"`
reaches `END` directly, route `"observer"` runs the observer and then `END`
(the observer's only outgoing edge), and any specialist route runs that
specialist and loops back to the router.  `spec k node` is the outcome of the
`k`-th dispatched agent body; fuel bounds the number of router passes and
models the LangGraph recursion limit, `none` meaning the limit was hit. -/
def runRouterLoop (spec : Nat → String → RunOutcome) :
    Nat → Nat → AgentState → Option AgentState
  | 0, _, _ => none
  | fuel + 1, k, s =>
      let s1 := routerNode s
      let (route, s2) := routeToAgents s1
      if route = "end" then some s2
      else if route = "observer" then
        some (agentExecute (instFor "observer") (spec k "observer") s2).2
      else
        runRouterLoop spec fuel (k + 1) (agentExecute (instFor route) (spec k route) s2).2

/-- Full graph run of `MultiAgentWorkflow.execute` after `create_initial_state`:
`start → architect → router loop` (workflow.py lines 111-145).  The single
architect invocation is summarised by `arch`.  An exception escaping the
architect node aborts `ainvoke`, and `execute` re-raises it (workflow.py lines
334-336): the run returns no final state, modelled by the `.error` branch;
`.ok none` is the router loop hitting the fuel bound. -/
def runWorkflow (arch : ArchRun) (spec : Nat → String → RunOutcome)
    (fuel : Nat) (s0 : AgentState) : Except String (Option AgentState) :=
  let s1 := startNode s0
  match (architectExecute (instFor "architect") arch s1).2 with
  | Except.error e => Except.error e
  | Except.ok s2 => Except.ok (runRouterLoop spec fuel 0 s2)

/-- `create_initial_state` (state.py lines 108-177); `task_id` and the
timestamp are environment-supplied inputs.  The four dynamic keys are absent
from the created dict: the first three sit at their `.get` defaults and
`agent_models` is `none` (the key is genuinely missing). -/
def createInitialState (task_description project_path linear_team_id github_repo
    task_id now : String) : AgentState :=
  { task_id := task_id,
    task_description := task_description,
    task_title := task_description.take 100,
    project_path := project_path,
    complexity := "moderate",
    linear_main_issue_id := "",
    linear_main_issue_url := "",
    linear_team_id := linear_team_id,
    linear_sub_issues := [],
    github_repo := github_repo,
    github_base_branch := "main",
    github_agent_branches := [],
    github_prs := [],
    agent_results := [],
    completed_agents := [],
    failed_agents := [],
    blocked_agents := [],
    started_at := now,
    updated_at := now,
    messages := ["Task created: " ++ task_description.take 50 ++ "..."],
    total_tokens_used := 0,
    total_cost_usd := 0,
    execution_time_seconds := 0,
    security_approved := false,
    needs_human_review := false,
    requires_devops := false,
    requires_testing := true,
    next_agent := "",
    iteration := 0,
    next_agents := [],
    task_complete := false,
    agent_models := none }

/-- Recursion ceiling passed to the compiled graph by
`MultiAgentWorkflow.execute` (workflow.py lines 316-323): the literal `1000`,
written without consulting the workflow configuration. -/
def executeRecursionLimit (_config : List (String × String)) : Nat :=
  1000

/-- `update_state_with_result` (state.py lines 180-228); the timestamp update
uses an environment-supplied clock value. -/
def updateStateWithResult (s : AgentState) (result : AgentResult) (now : String) :
    AgentState :=
  let s1 := { s with agent_results := updateAssoc s.agent_results result.agent_id result }
  let s2 :=
    if result.success then
      if result.agent_id ∈ s1.completed_agents then s1
      else { s1 with completed_agents := s1.completed_agents ++ [result.agent_id] }
    else
      if result.agent_id ∈ s1.failed_agents then s1
      else { s1 with failed_agents := s1.failed_agents ++ [result.agent_id] }
  let s3 :=
    if result.pr_url ≠ "" then
      { s2 with github_prs := s2.github_prs ++ [(result.agent_id, result.pr_url, result.branch_name)] }
    else s2
  let s4 :=
    { s3 with
      total_tokens_used := s3.total_tokens_used + result.tokens_used,
      total_cost_usd := s3.total_cost_usd + result.cost_usd,
      updated_at := now }
  if result.success then
    { s4 with messages := s4.messages ++ ["✅ " ++ result.agent_name ++ " completed"] }
  else
    { s4 with
      messages := s4.messages ++
        ["❌ " ++ result.agent_name ++ " failed: " ++ result.error_message] }

/-- Sequential dispatches against one shared state: each list entry is one
specialist node invocation (`LangChainAgentBase.execute`) with its body
outcome. -/
def runDispatches (s : AgentState) : List (AgentInstance × RunOutcome) → AgentState
  | [] => s
  | (i, o) :: rest => runDispatches ((agentExecute i o s).2) rest

/-- Non-negativity of the cost reported by a dispatch outcome (the
`cb.total_cost` figure of a successful run); failures report nothing. -/
def okCostNonneg : RunOutcome → Bool
  | .ok res => decide (0 ≤ res.cost_usd)
  | .err _ => true

/-- Generic successful specialist result used in the concrete scenarios. -/
def okResult : AgentResult :=
  { agent_id := "x", agent_name := "X", success := true, summary := "done",
    files_modified := [], files_created := [], files_deleted := [],
    branch_name := "", pr_url := "", commits := [], issue_id := "",
    issue_updated := false, tokens_used := 100, cost_usd := 1 / 100,
    execution_time := 0, error_message := "", needs_retry := false }

/-- Concrete initial state for the executable scenarios. -/
def cInit : AgentState :=
  createInitialState "demo task" "/project" "TEAM-1" "owner/repo" "task-1"
    "2024-01-01T00:00:00"

/-- Architect run that schedules exactly `["backend"]` and assigns no models. -/
def archBackend : ArchRun :=
  { outcome := .ok { okResult with
      agent_id := "agent-01-fullstack-architect", agent_name := "Carlos Mendoza" },
    scheduled := ["backend"],
    assigned := [] }

/-- Architect run whose LLM call failed before any tool call succeeded. -/
def archThrows : ArchRun :=
  { outcome := .err "RateLimitError after retries", scheduled := [], assigned := [] }

/-- Architect run whose final LLM call failed after a `schedule_agents`
tool call had already succeeded in an earlier retry attempt:
`self._scheduled_agents` (reset only at line 479) still holds the list at the
throw. -/
def archThrowsAfterSchedule : ArchRun :=
  { outcome := .err "RateLimitError after retries", scheduled := ["backend"], assigned := [] }

/-- Architect run that schedules backend and assigns it a model, the pattern
the architect prompt calls mandatory. -/
def archAssigns : ArchRun :=
  { outcome := .ok { okResult with
      agent_id := "agent-01-fullstack-architect", agent_name := "Carlos Mendoza" },
    scheduled := ["backend"],
    assigned := [("backend", "gpt-4o")] }

/-- Specialist behaviour where every dispatched body succeeds. -/
def specAllOk : Nat → String → RunOutcome :=
  fun _ _ => .ok okResult

/-- Specialist behaviour where the backend body fails and every other body
succeeds. -/
def specBackendFails : Nat → String → RunOutcome :=
  fun _ node => if node = "backend" then .err "LLM call failed" else .ok okResult

/-- Two-iteration scenario run: the Coordinator schedules `["backend"]`,
backend succeeds, the queue then drains and the run ends via the observer.
The final state when the run completed normally, `none` otherwise. -/
def c5Run : Option AgentState :=
  (runWorkflow archBackend specAllOk 2 cInit).toOption.join

/-- LLM behaviour: one rate-limit error carrying the server hint `1.5s`, then
success. -/
def c6Script1 : Nat → CallResult :=
  fun n =>
    if n = 0 then .rateLimit "Rate limit reached. Please try again in 1.5s." else .success okResult

/-- LLM behaviour: a rate-limit error with a malformed wait hint (`1.2.3`),
then one with a well-formed hint, then success. -/
def c6Script2 : Nat → CallResult :=
  fun n =>
    if n = 0 then .rateLimit "Rate limit reached. Please try again in 1.2.3s, retry later"
    else if n = 1 then .rateLimit "Rate limit reached. Please try again in 1.5s."
    else .success okResult

/-- Backend agent object at its configured default model. -/
def backendInst : AgentInstance :=
  instFor "backend"

/-- State in which the Coordinator stored a model override for backend under
the short alias key. -/
def overrideState : AgentState :=
  { cInit with agent_models := some [("backend", "gpt-4o")] }

/-- Router states whose queue fronts are the short alias, the canonical id,
and an unknown identifier. -/
def c7sQa : AgentState :=
  { cInit with next_agents := ["qa"] }

/-- Router state whose queue front is the canonical QA identifier. -/
def c7sCanon : AgentState :=
  { cInit with next_agents := ["agent-07-qa-specialist"] }

/-- Router state whose queue front is an identifier outside the lookup table. -/
def c7sUnknown : AgentState :=
  { cInit with next_agents := ["unknown-agent-x"] }

/-- Concrete dispatch trace: one success followed by one failure. -/
def c9Trace : List (AgentInstance × RunOutcome) :=
  [(backendInst, .ok okResult), (backendInst, .err "boom")]

/-- Scenario run in which the scheduled backend dispatch fails.  The final
state when the run completed normally, `none` otherwise. -/
def c3Run : Option AgentState :=
  (runWorkflow archBackend specBackendFails 2 cInit).toOption.join

/-- State produced by the architect node (before the model-assignment merge,
which either keeps it unchanged up to `agent_models` or raises): the base
execute applied to the started state, with the architect's scheduling
injected. -/
def postArchitectState (r : ArchRun) (s0 : AgentState) : AgentState :=
  architectInject r ((agentExecute (instFor "architect") r.outcome (startNode s0)).2)

/-!  Helper lemmas about the embedded operations. -/

/-- A specialist dispatch never touches the routing queue. -/
theorem agentExecute_next_agents (i : AgentInstance) (o : RunOutcome) (s : AgentState) :
    ((agentExecute i o s).2).next_agents = s.next_agents := by
  cases o <;> rfl

/-- A specialist dispatch never touches the stored model assignments. -/
theorem agentExecute_agent_models (i : AgentInstance) (o : RunOutcome) (s : AgentState) :
    ((agentExecute i o s).2).agent_models = s.agent_models := by
  cases o <;> rfl

/-- A specialist dispatch never touches the completion flag. -/
theorem agentExecute_task_complete (i : AgentInstance) (o : RunOutcome) (s : AgentState) :
    ((agentExecute i o s).2).task_complete = s.task_complete := by
  cases o <;> rfl

/-- The architect's scheduling injection replaces the routing queue wholesale
with the scheduled list. -/
theorem postArchitectState_next_agents (r : ArchRun) (s0 : AgentState) :
    (postArchitectState r s0).next_agents = r.scheduled := by
  rfl

/-- The architect node's second component, written through the two injection
steps. -/
theorem architectExecute_snd (i : AgentInstance) (r : ArchRun) (s : AgentState) :
    (architectExecute i r s).2
      = architectAssignModels r (architectInject r ((agentExecute i r.outcome s).2)) := by
  rfl

/-- With no model assignments the merge is the identity on the injected
state. -/
theorem architectAssignModels_nil (r : ArchRun) (s2 : AgentState) (h : r.assigned = []) :
    architectAssignModels r s2 = Except.ok s2 := by
  unfold architectAssignModels
  rw [h]

/-- With model assignments present and the `agent_models` key absent, the
merge raises `KeyError`. -/
theorem architectAssignModels_keyerror (r : ArchRun) (s2 : AgentState)
    (h : r.assigned ≠ []) (hm : s2.agent_models = none) :
    architectAssignModels r s2 = Except.error "KeyError: agent_models" := by
  unfold architectAssignModels
  rcases hass : r.assigned with _ | ⟨k, ks⟩
  · exact absurd hass h
  · rw [hm]

/-- A run whose Coordinator decision carries no model assignments reaches the
router loop on the post-architect state. -/
theorem runWorkflow_no_assignments (arch : ArchRun) (spec : Nat → String → RunOutcome)
    (fuel : Nat) (s0 : AgentState) (h : arch.assigned = []) :
    runWorkflow arch spec fuel s0
      = Except.ok (runRouterLoop spec fuel 0 (postArchitectState arch s0)) := by
  simp only [runWorkflow]
  rw [architectExecute_snd, architectAssignModels_nil _ _ h]
  rfl

/-- A run whose Coordinator decision carries model assignments raises
`KeyError` at the architect node when the `agent_models` key is absent from
the initial state: `execute()` re-raises and no router pass happens. -/
theorem runWorkflow_keyerror (arch : ArchRun) (spec : Nat → String → RunOutcome)
    (fuel : Nat) (s0 : AgentState) (h : arch.assigned ≠ []) (hm : s0.agent_models = none) :
    runWorkflow arch spec fuel s0 = Except.error "KeyError: agent_models" := by
  simp only [runWorkflow]
  rw [architectExecute_snd, architectAssignModels_keyerror _ _ h ?_]
  show ((agentExecute (instFor "architect") arch.outcome (startNode s0)).2).agent_models = none
  rw [agentExecute_agent_models]
  exact hm

/-- The architect's injection marks the task complete exactly when the
scheduled list is empty. -/
theorem postArchitectState_task_complete_empty (r : ArchRun) (s0 : AgentState)
    (h : r.scheduled = []) :
    (postArchitectState r s0).task_complete = true := by
  show (if r.scheduled.isEmpty then true else _) = true
  rw [h]
  rfl

/-- With a non-empty scheduled list the completion flag is inherited from the
initial state. -/
theorem postArchitectState_task_complete_nonempty (r : ArchRun) (s0 : AgentState)
    (h : r.scheduled ≠ []) (h0 : s0.task_complete = false) :
    (postArchitectState r s0).task_complete = false := by
  rcases hs : r.scheduled with _ | ⟨a, as⟩
  · exact absurd hs h
  · show (if r.scheduled.isEmpty then true
          else ((agentExecute (instFor "architect") r.outcome (startNode s0)).2).task_complete)
        = false
    rw [hs, agentExecute_task_complete]
    exact h0

/-- The token accumulator never decreases across one dispatch. -/
theorem agentExecute_tokens_mono (i : AgentInstance) (o : RunOutcome) (s : AgentState) :
    s.total_tokens_used ≤ ((agentExecute i o s).2).total_tokens_used := by
  cases o with
  | ok r => exact Nat.le_add_right _ _
  | err e => exact le_refl _

/-- The cost accumulator never decreases across one dispatch whose reported
cost is non-negative. -/
theorem agentExecute_cost_mono (i : AgentInstance) (o : RunOutcome) (s : AgentState)
    (h : okCostNonneg o = true) :
    s.total_cost_usd ≤ ((agentExecute i o s).2).total_cost_usd := by
  cases o with
  | ok r =>
      have hc : 0 ≤ r.cost_usd := by simpa [okCostNonneg] using h
      exact le_add_of_nonneg_right hc
  | err e => exact le_refl _

/-- Router pass when the completion flag is up: only the final observer step
is scheduled. -/
theorem routerNode_complete {s : AgentState} (h : s.task_complete = true) :
    routerNode s = { s with iteration := s.iteration + 1, next_agents := ["observer"] } := by
  simp [routerNode, h]

/-- Router pass on an empty queue: only the final observer step is
scheduled. -/
theorem routerNode_empty {s : AgentState} (h : s.task_complete = false)
    (h2 : s.next_agents = []) :
    routerNode s = { s with iteration := s.iteration + 1, next_agents := ["observer"] } := by
  simp [routerNode, h, h2]

/-- Router pass with work still queued: only the iteration counter moves. -/
theorem routerNode_busy {s : AgentState} (h : s.task_complete = false)
    {a : String} {rest : List String} (h2 : s.next_agents = a :: rest) :
    routerNode s = { s with iteration := s.iteration + 1 } := by
  simp [routerNode, h, h2]

/-- Conditional-edge resolution on a non-empty queue: pop the front and look
it up. -/
theorem routeToAgents_cons {s : AgentState} {a : String} {rest : List String}
    (h : s.next_agents = a :: rest) :
    routeToAgents s = ((lookupA agentMap a).getD "end", { s with next_agents := rest }) := by
  simp only [routeToAgents, h]

/-- The router loop reaches `END` once it has fuel exceeding the queue length:
every pass pops one queued identifier, and an exhausted or completed queue
leaves through the observer. -/
theorem runRouterLoop_total (spec : Nat → String → RunOutcome) :
    ∀ (fuel k : Nat) (s : AgentState), s.next_agents.length < fuel →
      (runRouterLoop spec fuel k s).isSome = true := by
  intro fuel
  induction fuel with
  | zero => intro k s h; omega
  | succ n ih =>
      intro k s h
      rcases hc : s.task_complete with _ | _
      · rcases hq : s.next_agents with _ | ⟨a, rest⟩
        · rw [runRouterLoop, routerNode_empty hc hq, routeToAgents_cons rfl]
          simp [lookupA, agentMap]
        · rw [runRouterLoop, routerNode_busy hc hq,
              routeToAgents_cons (s := { s with iteration := s.iteration + 1 }) hq]
          rcases hl : lookupA agentMap a with _ | node
          · simp [hl]
          · by_cases he : node = "end"
            · simp [hl, he]
            · by_cases ho : node = "observer"
              · simp [hl, he, ho]
              · simp only [hl, Option.getD_some, if_neg he, if_neg ho]
                apply ih
                rw [agentExecute_next_agents]
                have : s.next_agents.length = rest.length + 1 := by rw [hq]; rfl
                simp only [AgentState.next_agents] at *
                omega
      · rw [runRouterLoop, routerNode_complete hc, routeToAgents_cons rfl]
        simp [lookupA, agentMap]

/-- Unrolled specification of `retryLoop` with default `max_retries = 5`:
when the next `N` attempts are rate-limited and attempt `N` succeeds, the loop
returns the success and accumulates, per failed attempt, the buffered parsed
hint or the current exponential fallback delay. -/
theorem retryLoop_spec (script : Nat → CallResult) (res : AgentResult) :
    ∀ (N fuel attempt : Nat) (delay slept : ℚ), N < fuel → attempt + fuel = 5 →
      (∀ i, i < N → ∃ m, script (attempt + i) = CallResult.rateLimit m) →
      script (attempt + N) = CallResult.success res →
      retryLoop script 5 fuel attempt delay slept =
        .ok (res, slept + (Finset.range N).sum
          (fun i => waitOf (script (attempt + i)) (delay * 2 ^ i))) := by
  intro N
  induction N with
  | zero =>
      intro fuel attempt delay slept hNf hsum hfail hsucc
      rcases fuel with _ | f
      · omega
      · rw [Nat.add_zero] at hsucc
        rw [retryLoop, hsucc]
        simp
  | succ n ih =>
      intro fuel attempt delay slept hNf hsum hfail hsucc
      rcases fuel with _ | f
      · omega
      · obtain ⟨m, hm⟩ := hfail 0 (Nat.succ_pos n)
        rw [Nat.add_zero] at hm
        rw [retryLoop]
        simp only [hm]
        have hlt : attempt < 5 - 1 := by omega
        rw [if_pos hlt]
        have hfail2 : ∀ i, i < n → ∃ m2, script (attempt + 1 + i) = CallResult.rateLimit m2 := by
          intro i hi
          obtain ⟨m2, hm2⟩ := hfail (i + 1) (by omega)
          exact ⟨m2, by rwa [show attempt + (i + 1) = attempt + 1 + i by omega] at hm2⟩
        have hsucc2 : script (attempt + 1 + n) = CallResult.success res := by
          rwa [show attempt + (n + 1) = attempt + 1 + n by omega] at hsucc
        rw [ih f (attempt + 1) (delay * 2) _ (by omega) (by omega) hfail2 hsucc2]
        congr 1
        rw [Finset.sum_range_succ']
        have hshift : ∀ i ∈ Finset.range n,
            waitOf (script (attempt + 1 + i)) (delay * 2 * 2 ^ i) =
            waitOf (script (attempt + (i + 1))) (delay * 2 ^ (i + 1)) := by
          intro i _
          rw [show attempt + 1 + i = attempt + (i + 1) by omega]
          ring_nf
        rw [Finset.sum_congr rfl hshift]
        have hw0 : waitOf (script (attempt + 0)) (delay * 2 ^ (0 : Nat)) =
            (match parseWaitTime m with | some w => w + 1 | none => delay) := by
          rw [Nat.add_zero, hm]
          simp [waitOf]
        rw [hw0, Prod.mk.injEq]
        refine ⟨rfl, ?_⟩
        ring

/-- Token and cost accumulators are monotone along any dispatch trace whose
successful outcomes report non-negative costs. -/
theorem runDispatches_mono :
    ∀ (trace : List (AgentInstance × RunOutcome)) (s : AgentState),
      (∀ p ∈ trace, okCostNonneg p.2 = true) →
      s.total_tokens_used ≤ (runDispatches s trace).total_tokens_used ∧
      s.total_cost_usd ≤ (runDispatches s trace).total_cost_usd := by
  intro trace
  induction trace with
  | nil => intro s _; exact ⟨le_refl _, le_refl _⟩
  | cons p rest ih =>
      intro s h
      rcases p with ⟨i, o⟩
      have hstep := ih ((agentExecute i o s).2) (fun q hq => h q (List.mem_cons_of_mem _ hq))
      have h0 : okCostNonneg o = true := h (i, o) (List.mem_cons_self _ _)
      exact ⟨le_trans (agentExecute_tokens_mono i o s) hstep.1,
             le_trans (agentExecute_cost_mono i o s h0) hstep.2⟩

/-- `update_state_with_result` adds exactly the reported token and cost
figures to the accumulators, in every branch. -/
theorem updateStateWithResult_totals (s : AgentState) (result : AgentResult) (now : String) :
    (updateStateWithResult s result now).total_tokens_used
        = s.total_tokens_used + result.tokens_used ∧
    (updateStateWithResult s result now).total_cost_usd
        = s.total_cost_usd + result.cost_usd := by
  simp only [updateStateWithResult]
  split_ifs <;> exact ⟨rfl, rfl⟩

/-- Either no override applies (instance untouched, nothing to restore) or the
instance runs switched to the assigned model with its previous model saved. -/
theorem applyOverride_cases (inst : AgentInstance) (s : AgentState) :
    ((applyOverride inst s).2 = none ∧ (applyOverride inst s).1 = inst) ∨
    ∃ m, (applyOverride inst s).1 = { inst with llm_model := m } ∧
      (applyOverride inst s).2 = some inst.llm_model := by
  cases hm : lookupAssignedModel inst.agent_id (s.agent_models.getD []) with
  | none =>
      left
      constructor <;> simp [applyOverride, hm]
  | some m =>
      by_cases h : m ≠ inst.llm_model
      · right
        refine ⟨m, ?_, ?_⟩ <;> simp [applyOverride, hm, h]
      · left
        constructor <;> simp [applyOverride, hm, h]

/-- The agent object's model attribute is restored to its pre-dispatch value
on both the success and the failure path. -/
theorem agentExecute_model_restored (inst : AgentInstance) (o : RunOutcome) (s : AgentState) :
    ((agentExecute inst o s).1).llm_model = inst.llm_model := by
  cases o <;>
  · show (match (applyOverride inst s).2 with
          | some om => { (applyOverride inst s).1 with llm_model := om }
          | none => (applyOverride inst s).1).llm_model = inst.llm_model
    rcases applyOverride_cases inst s with ⟨h2, h1⟩ | ⟨m, h1, h2⟩ <;> simp only [h2, h1]

/-- The wait-time parser on a well-formed server hint of `1.5` seconds. -/
theorem parseWaitTime_wellformed :
    parseWaitTime "Rate limit reached. Please try again in 1.5s." = some (3 / 2) := by
  have h1 : containsSubstr "Rate limit reached. Please try again in 1.5s."
      "Please try again in" = true := by decide
  have h2 : findWaitTok "Rate limit reached. Please try again in 1.5s."
      = some ['1', '.', '5'] := by decide
  have h3 : splitOnDot ['1', '.', '5'] = [['1'], ['5']] := by decide
  have h4 : digitsVal ['1'] = 1 := by decide
  have h5 : digitsVal ['5'] = 5 := by decide
  unfold parseWaitTime
  rw [h1, h2]
  show pyFloat ['1', '.', '5'] = some (3 / 2)
  unfold pyFloat
  rw [h3]
  norm_num [h4, h5]

/-- The wait-time parser silently rejects the malformed hint `1.2.3`. -/
theorem parseWaitTime_malformed :
    parseWaitTime "Rate limit reached. Please try again in 1.2.3s, retry later" = none := by
  decide

/-!  Claim theorems. -/

/-- C1: on a router pass with an empty queue and the task not complete, the
code schedules the observer and routes to it, and the built graph offers no
path back to the architect: the architect is not a conditional-edge target and
its only incoming edge is from the start node.  This contradicts the claim
(and the docstrings of `_build_graph` and the architect prompt) that the
Coordinator is re-entered for a new decision on every such iteration. -/
theorem c1_empty_queue_routes_to_observer_never_to_architect :
    (routerNode cInit).next_agents = ["observer"] ∧
    (routeToAgents (routerNode cInit)).1 = "observer" ∧
    routerConditionalTargets.all (fun p => p.2 != "architect") = true ∧
    graphEdges.all (fun e => e.2 != "architect" || e.1 == "start") = true := by
  refine ⟨by decide, by decide, by decide, by decide⟩

/-- C2 counterexample: the recursion ceiling handed to the graph is the
literal `1000`; a configuration that asks for a ceiling of `5` is ignored, so
the ceiling is not configurable. -/
theorem c2_recursion_limit_not_configurable :
    executeRecursionLimit [("recursion_limit", "5")] = 1000 ∧ (1000 : ℕ) ≠ 5 := by
  exact ⟨rfl, by decide⟩

/-- C2 (amended): `execute()` never loops forever, but it does not terminate
normally for every decision either.  When the single Coordinator decision
carries no model assignments, the run completes: each router pass consumes one
queue entry, so fuel `scheduled.length + 1` suffices, and any decision that
fits finishes within the recursion ceiling of `1000`.  When the decision
assigns models and the `agent_models` key is absent (as `create_initial_state`
always leaves it), the architect node raises `KeyError` and `execute()`
re-raises with zero router passes.  The ceiling itself is the same hard-coded
`1000` for every configuration. -/
theorem c2_execute_terminates_and_ceiling_hardcoded
    (arch : ArchRun) (spec : Nat → String → RunOutcome) (s0 : AgentState) :
    (arch.assigned = [] →
      (∃ sf, runWorkflow arch spec (arch.scheduled.length + 1) s0 = Except.ok (some sf)) ∧
      (arch.scheduled.length + 1 ≤ 1000 →
        ∃ sf, runWorkflow arch spec 1000 s0 = Except.ok (some sf))) ∧
    (arch.assigned ≠ [] → s0.agent_models = none →
      ∀ fuel, runWorkflow arch spec fuel s0 = Except.error "KeyError: agent_models") ∧
    (∀ config, executeRecursionLimit config = 1000) := by
  refine ⟨?_, ?_, fun _ => rfl⟩
  · intro hass
    constructor
    · have h := runRouterLoop_total spec (arch.scheduled.length + 1) 0
        (postArchitectState arch s0)
        (by rw [postArchitectState_next_agents]; omega)
      rw [Option.isSome_iff_exists] at h
      obtain ⟨sf, hsf⟩ := h
      exact ⟨sf, by rw [runWorkflow_no_assignments arch spec _ s0 hass, hsf]⟩
    · intro hle
      have h := runRouterLoop_total spec 1000 0 (postArchitectState arch s0)
        (by rw [postArchitectState_next_agents]; omega)
      rw [Option.isSome_iff_exists] at h
      obtain ⟨sf, hsf⟩ := h
      exact ⟨sf, by rw [runWorkflow_no_assignments arch spec _ s0 hass, hsf]⟩
  · intro hass hm fuel
    exact runWorkflow_keyerror arch spec fuel s0 hass hm

/-- Witness for C2: the backend-only decision terminates with minimal fuel and
under the hard-coded ceiling, and the decision that also assigns a model makes
the same run raise `KeyError` instead. -/
theorem c2_execute_terminates_witness :
    (runWorkflow archBackend specAllOk
        (archBackend.scheduled.length + 1) cInit).toOption.join.isSome = true ∧
    (runWorkflow archBackend specAllOk 1000 cInit).toOption.join.isSome = true ∧
    runWorkflow archAssigns specAllOk 1000 cInit = Except.error "KeyError: agent_models" := by
  obtain ⟨h1, h2⟩ := (c2_execute_terminates_and_ceiling_hardcoded archBackend specAllOk cInit).1 rfl
  obtain ⟨sf1, hsf1⟩ := h1
  obtain ⟨sf2, hsf2⟩ := h2 (by decide)
  refine ⟨?_, ?_,
    (c2_execute_terminates_and_ceiling_hardcoded archAssigns specAllOk cInit).2.1
      (by decide) rfl 1000⟩
  · rw [hsf1]; rfl
  · rw [hsf2]; rfl

/-- C3 counterexample: after a failing backend dispatch, `failed_agents`
records the agent but `agent_results` has no entry at all for it, so
`agent_results[agent_id].success == false` fails. -/
theorem c3_failure_writes_no_agent_result :
    lookupA ((agentExecute backendInst (RunOutcome.err "LLM call failed") cInit).2).agent_results
        "agent-03-backend-specialist" = none ∧
    ((agentExecute backendInst (RunOutcome.err "LLM call failed") cInit).2).failed_agents
        = ["agent-03-backend-specialist"] := by
  refine ⟨by decide, by decide⟩

/-- C3 (amended): a specialist failure is recorded in `failed_agents` (and only
there — `agent_results` is untouched), and the workflow continues rather than
aborting: in the concrete run whose backend dispatch fails, the run still ends
through the observer. -/
theorem c3_failure_recorded_and_router_continues :
    (∀ (inst : AgentInstance) (e : String) (s : AgentState),
        inst.agent_id ∈ ((agentExecute inst (RunOutcome.err e) s).2).failed_agents ∧
        ((agentExecute inst (RunOutcome.err e) s).2).agent_results = s.agent_results) ∧
    c3Run.map (fun sf => sf.failed_agents) = some ["agent-03-backend-specialist"] ∧
    c3Run.map (fun sf => sf.completed_agents)
        = some ["agent-01-fullstack-architect", "agent-12-observer-optimizer"] := by
  refine ⟨fun inst e s => ⟨?_, rfl⟩, by decide, by decide⟩
  show inst.agent_id ∈ s.failed_agents ++ [inst.agent_id]
  simp

/-- C4 counterexample: `self._scheduled_agents` is reset only at the top of
the architect's execute (line 479), so a throw after retries are exhausted can
follow a successful `schedule_agents` tool call from an earlier attempt.  In
that reachable case the failed Coordinator injects the non-empty queue
`["backend"]` and `task_complete` stays `false` — not the empty queue and
completion flag the claim asserts. -/
theorem c4_throw_after_schedule_keeps_nonempty_queue :
    ((architectExecute (instFor "architect") archThrowsAfterSchedule (startNode cInit)).2).toOption.map
        (fun s2 => (s2.next_agents, s2.task_complete)) = some (["backend"], false) ∧
    ((["backend"], false) ≠ (([] : List String), true)) := by
  refine ⟨by decide, by decide⟩

/-- C4 (amended): when the Coordinator call throws after retries are
exhausted (and assigned no models), the failure is recorded in
`failed_agents` and `next_agents` is overwritten with whatever
`_scheduled_agents` held at the throw.  When no `schedule_agents` tool call
had succeeded — the call failed before producing a decision — that list is
empty, `task_complete` becomes `true`, and the router loop finishes in a
single pass through the observer; but when a `schedule_agents` call had
succeeded before the throw, the queue is that non-empty list and
`task_complete` stays `false`, so the workflow keeps dispatching the stale
schedule. -/
theorem c4_coordinator_failure_depends_on_tool_effects
    (e : String) (spec : Nat → String → RunOutcome) (s0 : AgentState) (r : ArchRun)
    (hout : r.outcome = RunOutcome.err e) (hass : r.assigned = [])
    (h0 : s0.task_complete = false) :
    (architectExecute (instFor "architect") r (startNode s0)).2
        = Except.ok (postArchitectState r s0) ∧
    "agent-01-fullstack-architect" ∈ (postArchitectState r s0).failed_agents ∧
    (postArchitectState r s0).next_agents = r.scheduled ∧
    (r.scheduled = [] → (postArchitectState r s0).task_complete = true ∧
        (runRouterLoop spec 1 0 (postArchitectState r s0)).isSome = true) ∧
    (r.scheduled ≠ [] → (postArchitectState r s0).task_complete = false) := by
  refine ⟨?_, ?_, postArchitectState_next_agents r s0, ?_, ?_⟩
  · rw [architectExecute_snd]
    exact architectAssignModels_nil _ _ hass
  · show "agent-01-fullstack-architect" ∈
      ((agentExecute (instFor "architect") r.outcome (startNode s0)).2).failed_agents
    rw [hout]
    show "agent-01-fullstack-architect"
        ∈ (startNode s0).failed_agents ++ ["agent-01-fullstack-architect"]
    simp
  · intro hsched
    refine ⟨postArchitectState_task_complete_empty r s0 hsched, ?_⟩
    rw [runRouterLoop, routerNode_complete (postArchitectState_task_complete_empty r s0 hsched),
        routeToAgents_cons rfl]
    simp [lookupA, agentMap]
  · intro hne
    exact postArchitectState_task_complete_nonempty r s0 hne h0

/-- Witness for C4, applying the theorem to both coordinator-throw shapes:
no successful tool call (straight to the observer) and a successful
`schedule_agents("backend")` before the throw (stale non-empty queue, flag
still down). -/
theorem c4_coordinator_failure_depends_on_tool_effects_witness :
    (architectExecute (instFor "architect") archThrows (startNode cInit)).2
        = Except.ok (postArchitectState archThrows cInit) ∧
    (postArchitectState archThrows cInit).task_complete = true ∧
    (runRouterLoop specAllOk 1 0 (postArchitectState archThrows cInit)).isSome = true ∧
    (postArchitectState archThrowsAfterSchedule cInit).next_agents = ["backend"] ∧
    (postArchitectState archThrowsAfterSchedule cInit).task_complete = false := by
  have h1 := c4_coordinator_failure_depends_on_tool_effects
    "RateLimitError after retries" specAllOk cInit archThrows rfl rfl rfl
  have h2 := c4_coordinator_failure_depends_on_tool_effects
    "RateLimitError after retries" specAllOk cInit archThrowsAfterSchedule rfl rfl rfl
  obtain ⟨ha, -, -, hemp, -⟩ := h1
  obtain ⟨-, -, hna, -, hne⟩ := h2
  obtain ⟨htc, hloop⟩ := hemp rfl
  exact ⟨ha, htc, hloop, hna, hne (by decide)⟩

/-- C5 counterexample: in the run where the Coordinator schedules
`["backend"]` and backend succeeds, the final `completed_agents` is the list of
full identifiers including the coordinator and the observer — not
`["backend"]` — and `task_complete` remains `false`. -/
theorem c5_final_state_deviates_from_claim :
    c5Run.map (fun sf => sf.completed_agents)
        = some ["agent-01-fullstack-architect", "agent-03-backend-specialist",
                "agent-12-observer-optimizer"] ∧
    (some ["agent-01-fullstack-architect", "agent-03-backend-specialist",
           "agent-12-observer-optimizer"] ≠ some ["backend"]) ∧
    c5Run.map (fun sf => sf.task_complete) = some false := by
  refine ⟨by decide, by decide, by decide⟩

/-- C5 (amended): the Coordinator runs exactly once, before the router loop;
with decision `["backend"]` and a successful backend the run performs exactly
two router iterations and ends through the observer, with `completed_agents`
holding the three full identifiers, no failures, and `task_complete` still
`false`. -/
theorem c5_backend_scenario_actual_final_state :
    c5Run.map (fun sf => (sf.completed_agents, sf.failed_agents, sf.task_complete, sf.iteration))
      = some (["agent-01-fullstack-architect", "agent-03-backend-specialist",
               "agent-12-observer-optimizer"], [], false, 2) := by
  decide

/-- C6 counterexample: with a parsed server hint of `1.5` seconds and one
failed attempt, the wrapper sleeps `2.5` seconds — the parsed value plus the
one-second buffer of line 534 — not the `1.5` seconds the claim states. -/
theorem c6_sleep_exceeds_parsed_hint :
    executeWithRetry c6Script1 = .ok (okResult, 5 / 2) ∧ ((5 : ℚ) / 2 ≠ 3 / 2) := by
  constructor
  · have hf : ∀ i, i < 1 → ∃ m, c6Script1 (0 + i) = CallResult.rateLimit m := by
      intro i hi
      have h0 : i = 0 := by omega
      subst h0
      exact ⟨"Rate limit reached. Please try again in 1.5s.", rfl⟩
    have hs : c6Script1 (0 + 1) = CallResult.success okResult := rfl
    have h := retryLoop_spec c6Script1 okResult 1 5 0 2 0 (by omega) (by omega) hf hs
    rw [show executeWithRetry c6Script1 = retryLoop c6Script1 5 5 0 2 0 from rfl, h]
    congr 1
    rw [Prod.mk.injEq]
    refine ⟨rfl, ?_⟩
    rw [Finset.sum_range_one,
        show c6Script1 (0 + 0)
          = CallResult.rateLimit "Rate limit reached. Please try again in 1.5s." from rfl]
    simp [waitOf, parseWaitTime_wellformed]
    norm_num
  · norm_num

/-- C6 (amended): when the LLM service is rate-limited for the first `N < 5`
attempts and then succeeds, the wrapper returns the successful result, and the
total time slept is, per failed attempt, the parsed server hint plus a
one-second buffer when the message carries a well-formed hint, and otherwise
the exponential fallback delay starting at 2 seconds and doubling after every
failed attempt (a malformed hint silently falls back to that default). -/
theorem c6_retry_success_with_buffered_sleep
    (script : Nat → CallResult) (N : Nat) (res : AgentResult)
    (hN : N < 5)
    (hfail : ∀ i, i < N → ∃ m, script i = CallResult.rateLimit m)
    (hsucc : script N = CallResult.success res) :
    executeWithRetry script =
      .ok (res, (Finset.range N).sum (fun i => waitOf (script i) (2 * 2 ^ i))) := by
  have hf : ∀ i, i < N → ∃ m, script (0 + i) = CallResult.rateLimit m := by
    intro i hi
    simpa using hfail i hi
  have hs : script (0 + N) = CallResult.success res := by simpa using hsucc
  have h := retryLoop_spec script res N 5 0 2 0 hN (by omega) hf hs
  rw [show executeWithRetry script = retryLoop script 5 5 0 2 0 from rfl, h]
  simp

/-- Witness for C6: a malformed hint, then a well-formed hint, then success —
the run succeeds and sleeps the fallback 2 seconds plus the buffered 2.5
seconds, 4.5 seconds in total. -/
theorem c6_retry_success_with_buffered_sleep_witness :
    executeWithRetry c6Script2 =
      .ok (okResult, (Finset.range 2).sum (fun i => waitOf (c6Script2 i) (2 * 2 ^ i))) ∧
    (Finset.range 2).sum (fun i => waitOf (c6Script2 i) (2 * 2 ^ i)) = 9 / 2 := by
  constructor
  · refine c6_retry_success_with_buffered_sleep c6Script2 2 okResult (by omega) ?_ rfl
    intro i hi
    match i, hi with
    | 0, _ => exact ⟨"Rate limit reached. Please try again in 1.2.3s, retry later", rfl⟩
    | 1, _ => exact ⟨"Rate limit reached. Please try again in 1.5s.", rfl⟩
  · rw [Finset.sum_range_succ, Finset.sum_range_one,
        show c6Script2 0 = CallResult.rateLimit
          "Rate limit reached. Please try again in 1.2.3s, retry later" from rfl,
        show c6Script2 1 = CallResult.rateLimit
          "Rate limit reached. Please try again in 1.5s." from rfl]
    simp [waitOf, parseWaitTime_wellformed, parseWaitTime_malformed]
    norm_num

/-- C7 counterexample: an unknown identifier at the front of the queue routes
to the terminal `"end"` label, but `_route_to_agents` contains no logging
call, so no warning is logged — against the claim. -/
theorem c7_unknown_id_silent_fallback :
    (routeToAgents c7sUnknown).1 = "end" ∧ routeToAgentsLog c7sUnknown = [] := by
  exact ⟨by decide, rfl⟩

/-- C7 (amended): resolution is a pure table lookup on the popped front of the
queue: both `"qa"` and `"agent-07-qa-specialist"` resolve to the `qa` node, and
an identifier absent from the table falls back silently (no warning) to the
terminal route `"end"` instead of raising. -/
theorem c7_alias_resolution_pure_lookup
    (s t u : AgentState) (a : String) (r1 r2 r3 : List String)
    (hs : s.next_agents = "qa" :: r1)
    (ht : t.next_agents = "agent-07-qa-specialist" :: r2)
    (hu : u.next_agents = a :: r3) (ha : lookupA agentMap a = none) :
    (routeToAgents s).1 = "qa" ∧ (routeToAgents t).1 = "qa" ∧
    (routeToAgents s).2.next_agents = r1 ∧
    (routeToAgents u).1 = "end" ∧ routeToAgentsLog u = [] := by
  rw [routeToAgents_cons hs, routeToAgents_cons ht, routeToAgents_cons hu, ha]
  exact ⟨rfl, rfl, rfl, rfl, rfl⟩

/-- Witness for C7 at the concrete router states. -/
theorem c7_alias_resolution_pure_lookup_witness :
    (routeToAgents c7sQa).1 = "qa" ∧ (routeToAgents c7sCanon).1 = "qa" ∧
    (routeToAgents c7sQa).2.next_agents = [] ∧
    (routeToAgents c7sUnknown).1 = "end" ∧ routeToAgentsLog c7sUnknown = [] :=
  c7_alias_resolution_pure_lookup c7sQa c7sCanon c7sUnknown "unknown-agent-x" [] [] []
    rfl rfl rfl (by decide)

/-- C8 counterexample: the backend override stored under the short alias is
applied at the first dispatch and the model attribute is restored afterwards,
but the override entry stays in `agent_models`, so an immediately following
dispatch of the same agent applies it again — the override is sticky, not
single-call. -/
theorem c8_override_sticky_across_dispatches :
    modelUsed backendInst overrideState = "gpt-4o" ∧
    ((agentExecute backendInst (RunOutcome.ok okResult) overrideState).1).llm_model
        = "gpt-4-turbo-preview" ∧
    modelUsed ((agentExecute backendInst (RunOutcome.ok okResult) overrideState).1)
        ((agentExecute backendInst (RunOutcome.ok okResult) overrideState).2) = "gpt-4o" := by
  refine ⟨by decide, by decide, by decide⟩

/-- C8 (amended): the override is looked up at dispatch (under both the
canonical and the short alias key) and the agent's model attribute is restored
after every run, success or failure; but the dispatch leaves `agent_models`
unchanged, so the stored override persists and is re-applied at every later
dispatch of the same agent. -/
theorem c8_override_consulted_and_model_restored :
    (∀ (inst : AgentInstance) (o : RunOutcome) (s : AgentState),
        ((agentExecute inst o s).1).llm_model = inst.llm_model ∧
        ((agentExecute inst o s).2).agent_models = s.agent_models) ∧
    lookupAssignedModel "agent-07-qa-specialist" [("agent-07-qa-specialist", "gpt-4o")]
        = some "gpt-4o" ∧
    lookupAssignedModel "agent-07-qa-specialist" [("qa", "gpt-4o")] = some "gpt-4o" := by
  refine ⟨fun inst o s =>
    ⟨agentExecute_model_restored inst o s, agentExecute_agent_models inst o s⟩,
    by decide, by decide⟩

/-- C9: along any dispatch trace whose successful outcomes report non-negative
costs, the token and cost accumulators never decrease; the same holds for the
`update_state_with_result` helper, on success and failure results alike. -/
theorem c9_accumulators_monotone
    (trace : List (AgentInstance × RunOutcome)) (s : AgentState)
    (h : ∀ p ∈ trace, okCostNonneg p.2 = true) :
    (s.total_tokens_used ≤ (runDispatches s trace).total_tokens_used ∧
     s.total_cost_usd ≤ (runDispatches s trace).total_cost_usd) ∧
    ∀ (result : AgentResult) (now : String), 0 ≤ result.cost_usd →
      s.total_tokens_used ≤ (updateStateWithResult s result now).total_tokens_used ∧
      s.total_cost_usd ≤ (updateStateWithResult s result now).total_cost_usd := by
  refine ⟨runDispatches_mono trace s h, ?_⟩
  intro result now hc
  obtain ⟨ht, hco⟩ := updateStateWithResult_totals s result now
  constructor
  · rw [ht]; exact Nat.le_add_right _ _
  · rw [hco]; exact le_add_of_nonneg_right hc

/-- Witness for C9 on a success-then-failure trace. -/
theorem c9_accumulators_monotone_witness :
    (cInit.total_tokens_used ≤ (runDispatches cInit c9Trace).total_tokens_used ∧
     cInit.total_cost_usd ≤ (runDispatches cInit c9Trace).total_cost_usd) ∧
    (cInit.total_tokens_used
        ≤ (updateStateWithResult cInit okResult "2024-01-01T00:00:01").total_tokens_used ∧
     cInit.total_cost_usd
        ≤ (updateStateWithResult cInit okResult "2024-01-01T00:00:01").total_cost_usd) := by
  have hcost : ∀ p ∈ c9Trace, okCostNonneg p.2 = true := by
    intro p hp
    simp only [c9Trace, List.mem_cons, List.not_mem_nil, or_false] at hp
    rcases hp with rfl | rfl
    · norm_num [okCostNonneg, okResult]
    · rfl
  have h := c9_accumulators_monotone c9Trace cInit hcost
  exact ⟨h.1, h.2 okResult "2024-01-01T00:00:01" (by norm_num [okResult])⟩

/-- C10: the failure path of a dispatch appends exactly one entry to
`failed_agents` and exactly one entry to `messages`, and leaves
`agent_results`, `completed_agents`, `total_tokens_used` and `total_cost_usd`
unchanged. -/
theorem c10_failure_path_exact_frame :
    ∀ (inst : AgentInstance) (e : String) (s : AgentState),
      ((agentExecute inst (RunOutcome.err e) s).2).failed_agents
          = s.failed_agents ++ [inst.agent_id] ∧
      ((agentExecute inst (RunOutcome.err e) s).2).messages
          = s.messages ++ ["❌ " ++ inst.name ++ " falló: " ++ e] ∧
      ((agentExecute inst (RunOutcome.err e) s).2).agent_results = s.agent_results ∧
      ((agentExecute inst (RunOutcome.err e) s).2).completed_agents = s.completed_agents ∧
      ((agentExecute inst (RunOutcome.err e) s).2).total_tokens_used = s.total_tokens_used ∧
      ((agentExecute inst (RunOutcome.err e) s).2).total_cost_usd = s.total_cost_usd :=
  fun _ _ _ => ⟨rfl, rfl, rfl, rfl, rfl, rfl⟩

end MultiAgents

